import Mathlib

/-!
Verification development for the Nacio geopolitical-simulation core.

The Python sources under `models/nation.py`, `systems/stat_extractor.py`,
`systems/simulation.py` and `core/engine.py` are shallowly embedded below:

* Python `float` values are modelled as exact rationals (`ℚ`); every concrete
  computation appearing in a theorem below is exactly representable in binary64
  as well, so no rounding distinction arises at checked inputs.
* Python `int` is modelled as `ℤ` (`Int`); Python `int(x)` truncation toward
  zero on a float is `pyInt`.
* Python strings are modelled as `String` / `List Char`; the two `re.findall`
  patterns of the extractor are hand-compiled into deterministic scanners (the
  patterns have no essential backtracking: the character class `[A-Za-z\s]`
  excludes `:`, so the greedy group-1 run is maximal-munch, and the lazy
  `.*?\(` is a left-to-right scan for `(` that cannot cross a newline).
  `\s` and `\d` are modelled over their ASCII ranges, which covers every
  character the embedded reports contain.
* Statements that can raise in Python (`float(...)` on a bad literal,
  attribute access on a missing attribute, `split(...)[1]` on a missing
  separator) return `Except PyErr` values or thread an `Option PyErr`
  alongside the partially mutated state, mirroring that CPython's
  `try`/`except` keeps the mutations already performed before the raise.
* `Nation.__init__` never assigns `self.factions`; the dynamically-absent
  attribute is modelled as `factions : Option (List (String × ℚ))`, with
  `none` meaning "attribute missing" (reading it raises `AttributeError`).
-/

/-- Python exception kinds that the embedded code can raise. -/
inductive PyErr where
  | attributeError
  | valueError
  | indexError
deriving DecidableEq, Repr

/-! ## String primitives (Python `in`, `split`, `strip`, `lower`) -/

/-- ASCII model of Python's regex `\s` class: space, tab, newline, carriage
return, form feed, vertical tab. -/
def isSpaceChar (c : Char) : Bool :=
  c = ' ' || c = '\t' || c = '\n' || c = '\r' || c = '\x0c' || c = '\x0b'

/-- The character class `[A-Za-z\s]` used by both extractor patterns. -/
def isClassChar (c : Char) : Bool :=
  c.isAlpha || isSpaceChar c

/-- Does `p` occur at the head of `t`? -/
def leadsWith : List Char → List Char → Bool
  | [], _ => true
  | _ :: _, [] => false
  | p :: ps, t :: ts => decide (p = t) && leadsWith ps ts

/-- First occurrence of `p` in `t`: returns the suffix just after it. -/
def findOcc : List Char → List Char → Option (List Char)
  | [], p => if leadsWith p [] then some [] else none
  | t@(_ :: ts), p => if leadsWith p t then some (t.drop p.length) else findOcc ts p

/-- Python's substring containment `p in t` on character lists. -/
def containsSubL (t p : List Char) : Bool :=
  (findOcc t p).isSome

/-- Python's substring containment `pat in s` on strings. -/
def containsSubstr (s pat : String) : Bool :=
  containsSubL s.data pat.data

/-- Prefix of `t` strictly before the first occurrence of `p`
(Python `t.split(p)[0]`; all of `t` when `p` does not occur). -/
def beforeFirst : List Char → List Char → List Char
  | [], _ => []
  | t@(c :: ts), p => if leadsWith p t then [] else c :: beforeFirst ts p

/-- Fuel-driven worker for `afterLast`; the fuel bounds the number of
occurrences that can be skipped, so `t.length + 1` always suffices. -/
def afterLastAux : Nat → List Char → List Char → List Char
  | 0, t, _ => t
  | fuel + 1, t, p =>
    match findOcc t p with
    | none => t
    | some rest => afterLastAux fuel rest p

/-- Suffix of `t` after the last occurrence of `p`
(Python `t.split(p)[-1]`; all of `t` when `p` does not occur). -/
def afterLast (t p : List Char) : List Char :=
  afterLastAux (t.length + 1) t p

/-- Python `s.strip()` over the modelled `\s` class. -/
def pyStrip (s : String) : String :=
  ⟨((s.data.dropWhile isSpaceChar).reverse.dropWhile isSpaceChar).reverse⟩

/-- Python `s.lower()` (labels handled here are ASCII). -/
def pyLower (s : String) : String :=
  ⟨s.data.map Char.toLower⟩

/-! ## Numeric literals (`float(...)`, `int(...)`) -/

/-- Decimal digits to a natural number. -/
def digitsToNat (l : List Char) : Nat :=
  l.foldl (fun a c => a * 10 + (c.toNat - 48)) 0

/-- Value of a `[+-]?\d+(\.\d+)?`-shaped literal as an exact rational. -/
def ratOfNum (l : List Char) : ℚ :=
  let (neg, l1) :=
    match l with
    | '-' :: r => (true, r)
    | '+' :: r => (false, r)
    | _ => (false, l)
  let intPart := l1.takeWhile fun c => c.isDigit
  let rest := l1.dropWhile fun c => c.isDigit
  let fracPart :=
    match rest with
    | '.' :: fs => fs
    | _ => []
  let v : ℚ := (digitsToNat intPart : ℚ) + (digitsToNat fracPart : ℚ) / ((10 : ℚ) ^ fracPart.length)
  if neg then -v else v

/-- Match the regex fragment `[+-]?\d+(?:\.\d+)?` at the head of `s`,
returning the matched characters and the rest.  As in the pattern, a sign
not followed by a digit fails, and a dot not followed by a digit is left
unconsumed. -/
def parseNum (s : List Char) : Option (List Char × List Char) :=
  let (sgn, s1) :=
    match s with
    | '+' :: r => (['+'], r)
    | '-' :: r => (['-'], r)
    | _ => (([] : List Char), s)
  let ds := s1.takeWhile fun c => c.isDigit
  let s2 := s1.dropWhile fun c => c.isDigit
  if ds.isEmpty then none
  else
    match s2 with
    | '.' :: s3 =>
      let fs := s3.takeWhile fun c => c.isDigit
      let s4 := s3.dropWhile fun c => c.isDigit
      if fs.isEmpty then some (sgn ++ ds, s2)
      else some (sgn ++ ds ++ '.' :: fs, s4)
    | _ => some (sgn ++ ds, s2)

/-- Python `float(value_str)` restricted to the literal grammar the extractor's
regexes can produce; any other shape raises `ValueError` as in CPython. -/
def pyFloat (s : String) : Except PyErr ℚ :=
  match parseNum s.data with
  | some (num, rest) => if rest.isEmpty then Except.ok (ratOfNum num) else Except.error PyErr.valueError
  | none => Except.error PyErr.valueError

/-- Python `int(x)` on a float: truncation toward zero. -/
def pyInt (q : ℚ) : ℤ :=
  if q < 0 then -((-q).floor) else q.floor

/-! ## Nation state (`models/nation.py`) -/

/-- One snapshot appended by `Nation.record_stats`. -/
structure StatEntry where
  year : Int
  population : Int
  gdp : ℚ
  treasury : ℚ
  stability : ℚ
  approval : ℚ
  military : ℚ
  tech : Int
  ind : Int
deriving DecidableEq, Repr

/-- One record appended by `Nation.add_event`. -/
structure HistEntry where
  year : Int
  summary : String
  law_impact : String
  event : String
deriving DecidableEq, Repr

/-- The `Nation` object, fields in `__init__` assignment order.  `factions`
is `none` when the attribute is absent (it is never assigned in
`__init__`, `to_dict` or `from_dict`). -/
structure Nation where
  name : String
  save_name : String
  starting_year : Int
  briefing_text : String
  flag_emoji : String
  industrialization_level : Int
  tech_level : Int
  nation_era : String
  population : Int
  public_approval : ℚ
  gdp : ℚ
  treasury : ℚ
  military_strength : ℚ
  political_stability : ℚ
  world_gdp : List (String × ℚ)
  world_military : List (String × ℚ)
  regional_neighbors : List (String × ℚ)
  stat_history : List StatEntry
  history : List HistEntry
  factions : Option (List (String × ℚ))
deriving DecidableEq, Repr

/-- `Nation.__init__`, parameters in the Python signature's order.  Optional
Python parameters defaulting to `None`-then-replaced are `Option` arguments;
`public_approval` is hard-wired to `50.0` and `history` to `[]`. -/
def mkNation (name : String) (year : Int) (population : Int) (gdp : ℚ)
    (military_strength : ℚ) (political_stability : ℚ) (briefing : String)
    (save_name : String) (treasury : Option ℚ) (world_gdp : Option (List (String × ℚ)))
    (world_military : Option (List (String × ℚ))) (stat_history : Option (List StatEntry))
    (flag_emoji : String) (industrialization_level : Int) (tech_level : Int)
    (nation_era : String) (regional_neighbors : Option (List (String × ℚ))) : Nation :=
  { name := name
    save_name := save_name
    starting_year := year
    briefing_text := briefing
    flag_emoji := flag_emoji
    industrialization_level := industrialization_level
    tech_level := tech_level
    nation_era := nation_era
    population := population
    public_approval := 50
    gdp := gdp
    treasury := treasury.getD (gdp * (20 / 100))
    military_strength := military_strength
    political_stability := political_stability
    world_gdp := world_gdp.getD []
    world_military := world_military.getD []
    regional_neighbors := regional_neighbors.getD []
    stat_history := stat_history.getD []
    history := []
    factions := none }

/-- The `gdp_per_capita` property: `0` for non-positive population, else
`gdp * 1e9 / population`. -/
def gdp_per_capita (n : Nation) : ℚ :=
  if n.population ≤ 0 then 0 else (n.gdp * 1000000000) / (n.population : ℚ)

/-- The `combat_power` property: military strength scaled by tech,
industrialization, and a stability modifier floored at `0.1`. -/
def combat_power (n : Nation) : ℚ :=
  let techModifier : ℚ := 1 + (n.tech_level : ℚ) * (20 / 100)
  let indModifier : ℚ := 1 + (n.industrialization_level : ℚ) * (20 / 100)
  let stabilityModifier : ℚ := max (1 / 10) (n.political_stability / 100)
  n.military_strength * techModifier * indModifier * stabilityModifier

/-- The era priority ladder of `Nation.update_era`, evaluated top-down with
first match winning, exactly as the `if`/`elif` chain in the source. -/
def eraLadder (tech ind : Int) (stability gdpPc : ℚ) : String :=
  if tech = 5 ∧ ind = 5 ∧ gdpPc > 30000 then "Space Age"
  else if tech ≥ 5 ∧ ind ≥ 4 then "Cyber Age"
  else if tech ≥ 4 ∧ ind ≥ 3 then "Industrialization Age"
  else if tech ≥ 3 ∧ ind ≥ 2 then "Steel Age"
  else if tech ≥ 2 ∧ ind ≥ 2 ∧ stability ≥ 40 then "Iron Age"
  else if tech ≥ 1 ∧ gdpPc > 500 then "Mythic Age"
  else if ind ≥ 2 then "Bronze Age"
  else "Stone Age"

/-- `Nation.update_era`: recompute `nation_era` from the ladder. -/
def update_era (n : Nation) : Nation :=
  { n with nation_era := eraLadder n.tech_level n.industrialization_level n.political_stability (gdp_per_capita n) }

/-- `Nation.process_turn`: the whole body is a single call to `update_era`. -/
def process_turn (n : Nation) : Nation :=
  update_era n

/-- `Nation.record_stats`. -/
def record_stats (n : Nation) (year : Int) : Nation :=
  { n with stat_history := n.stat_history ++
      [{ year := year, population := n.population, gdp := n.gdp, treasury := n.treasury,
         stability := n.political_stability, approval := n.public_approval,
         military := n.military_strength, tech := n.tech_level,
         ind := n.industrialization_level }] }

/-- `Nation.add_event`. -/
def add_event (n : Nation) (year : Int) (summary law_impact event : String) : Nation :=
  { n with history := n.history ++ [{ year := year, summary := summary, law_impact := law_impact, event := event }] }

/-- The record returned by `Nation.execute_war`. -/
structure WarResult where
  result : String
  player_power : ℤ
  enemy_power : ℤ
  cost_billions : ℚ
deriving DecidableEq, Repr

/-- `Nation.execute_war`.  The three random draws of the source become
explicit arguments: `enemyTechSample` stands for
`random.randint(max(1, tech-1), min(5, tech+1))` and `playerLuck`,
`enemyLuck` for the two `random.uniform(0.85, 1.15)` draws. -/
def executeWar (n : Nation) (targetName : String) (targetBaseStrength : ℚ)
    (forceCommitmentPct : ℚ) (enemyTechSample : ℤ) (playerLuck enemyLuck : ℚ) :
    Nation × WarResult :=
  let _ := targetName
  let playerCommittedPower := combat_power n * (forceCommitmentPct / 100)
  let enemyTechMod : ℚ := 1 + (enemyTechSample : ℚ) * (20 / 100)
  let enemyCombatPower := targetBaseStrength * enemyTechMod
  let playerRoll := playerCommittedPower * playerLuck
  let enemyRoll := enemyCombatPower * enemyLuck
  let warCostGdp := n.gdp * (forceCommitmentPct / 200)
  let n1 := { n with treasury := n.treasury - warCostGdp }
  if playerRoll > enemyRoll then
    ({ n1 with
        gdp := n1.gdp + targetBaseStrength * (1 / 2)
        population := n1.population + pyInt (targetBaseStrength * 10000)
        military_strength := n1.military_strength - n1.military_strength * (5 / 100)
        political_stability := n1.political_stability + 5
        public_approval := n1.public_approval + 10 },
     { result := "VICTORY", player_power := pyInt playerRoll,
       enemy_power := pyInt enemyRoll, cost_billions := warCostGdp })
  else
    ({ n1 with
        military_strength := n1.military_strength - n1.military_strength * (forceCommitmentPct / 100) * (1 / 2)
        political_stability := n1.political_stability - 15
        public_approval := n1.public_approval - 20 },
     { result := "DEFEAT", player_power := pyInt playerRoll,
       enemy_power := pyInt enemyRoll, cost_billions := warCostGdp })

/-! ## Stat extractor (`systems/stat_extractor.py`) -/

/-- Attempt the core-stats pattern
`([A-Za-z\s]+):\s*(?:\*\*)?\s*([+-]?\d+(?:\.\d+)?)(%?)` at the head of `s`.
Returns group 1, group 2, whether group 3 matched `%`, and the rest of the
input after the match. -/
def matchStatAt (s : List Char) : Option (String × String × Bool × List Char) :=
  let lbl := s.takeWhile isClassChar
  let r1 := s.dropWhile isClassChar
  if lbl.isEmpty then none
  else
    match r1 with
    | ':' :: r2 =>
      let r3 := r2.dropWhile isSpaceChar
      let r4 := if leadsWith ['*', '*'] r3 then r3.drop 2 else r3
      let r5 := r4.dropWhile isSpaceChar
      match parseNum r5 with
      | none => none
      | some (num, r6) =>
        match r6 with
        | '%' :: r7 => some (⟨lbl⟩, ⟨num⟩, true, r7)
        | _ => some (⟨lbl⟩, ⟨num⟩, false, r6)
    | _ => none

/-- Worker for `re.findall` with the core-stats pattern: try a match at every
position, left to right, resuming after each match as `findall` does.  Each
step consumes at least one character, so fuel `s.length` suffices. -/
def findAllStatsAux : Nat → List Char → List (String × String × Bool)
  | 0, _ => []
  | _, [] => []
  | fuel + 1, s@(_ :: rest) =>
    match matchStatAt s with
    | some (lbl, num, pct, r) => (lbl, num, pct) :: findAllStatsAux fuel r
    | none => findAllStatsAux fuel rest

/-- `re.findall` with the core-stats pattern. -/
def findAllStats (s : List Char) : List (String × String × Bool) :=
  findAllStatsAux s.length s

/-- The literal `Support Change:` inside the faction pattern. -/
def supportChangeMarker : List Char := "Support Change:".data

/-- After a candidate `(`, match `\s*Support Change:\s*([+-]?\d+(?:\.\d+)?)\s*\)`;
returns group 2 and the rest after the closing parenthesis. -/
def innerSupport (s : List Char) : Option (List Char × List Char) :=
  let s1 := s.dropWhile isSpaceChar
  if leadsWith supportChangeMarker s1 then
    let s2 := s1.drop supportChangeMarker.length
    let s3 := s2.dropWhile isSpaceChar
    match parseNum s3 with
    | none => none
    | some (num, s4) =>
      let s5 := s4.dropWhile isSpaceChar
      match s5 with
      | ')' :: s6 => some (num, s6)
      | _ => none
  else none

/-- The lazy fragment `.*?\(...` of the faction pattern: scan left to right
for a `(` whose tail matches `innerSupport`; `.` cannot cross a newline. -/
def lazyParen : List Char → Option (List Char × List Char)
  | [] => none
  | c :: cs =>
    if c = '\n' then none
    else if c = '(' then
      match innerSupport cs with
      | some r => some r
      | none => lazyParen cs
    else lazyParen cs

/-- Attempt the faction pattern
`([A-Za-z\s]+):.*?\(\s*Support Change:\s*([+-]?\d+(?:\.\d+)?)\s*\)` at the
head of `s`. -/
def matchFactionAt (s : List Char) : Option (String × String × List Char) :=
  let lbl := s.takeWhile isClassChar
  let r1 := s.dropWhile isClassChar
  if lbl.isEmpty then none
  else
    match r1 with
    | ':' :: r2 =>
      match lazyParen r2 with
      | some (num, rest) => some (⟨lbl⟩, ⟨num⟩, rest)
      | none => none
    | _ => none

/-- Worker for `re.findall` with the faction pattern. -/
def findAllFactionsAux : Nat → List Char → List (String × String)
  | 0, _ => []
  | _, [] => []
  | fuel + 1, s@(_ :: rest) =>
    match matchFactionAt s with
    | some (lbl, num, r) => (lbl, num) :: findAllFactionsAux fuel r
    | none => findAllFactionsAux fuel rest

/-- `re.findall` with the faction pattern. -/
def findAllFactions (s : List Char) : List (String × String) :=
  findAllFactionsAux s.length s

/-- Python dict lookup on the insertion-ordered association list. -/
def dictGet (d : List (String × ℚ)) (k : String) : Option ℚ :=
  (d.find? fun p => p.1 = k).map fun p => p.2

/-- Python dict assignment: update in place, or append a new key at the end. -/
def dictSet : List (String × ℚ) → String → ℚ → List (String × ℚ)
  | [], k, v => [(k, v)]
  | (k', v') :: rest, k, v =>
    if k' = k then (k, v) :: rest else (k', v') :: dictSet rest k v

/-- Dispatch table of the core-stats loop body (`stat_extractor.py` lines
38-72): keyword containment tested in source order, first hit wins, unmatched
labels ignored.  `statName` is the already stripped and lowercased group 1. -/
def applyStat (n : Nation) (statName : String) (v : ℚ) (isPct : Bool) : Nation :=
  if containsSubstr statName "gdp" then
    { n with gdp := if isPct then n.gdp + n.gdp * (v / 100) else n.gdp + v }
  else if containsSubstr statName "treasury" then
    { n with treasury := if isPct then n.treasury + n.treasury * (v / 100) else n.treasury + v }
  else if containsSubstr statName "population" then
    { n with population := n.population + (if isPct then pyInt ((n.population : ℚ) * (v / 100)) else pyInt v) }
  else if containsSubstr statName "military" then
    { n with military_strength := n.military_strength + (if isPct then n.military_strength * (v / 100) else v) }
  else if containsSubstr statName "stability" then
    { n with political_stability := max 0 (min 100 (n.political_stability + v)) }
  else if containsSubstr statName "approval" then
    { n with public_approval := max 0 (min 100 (n.public_approval + v)) }
  else if containsSubstr statName "tech" then
    { n with tech_level := max 1 (min 5 (pyInt ((n.tech_level : ℚ) + v))) }
  else if containsSubstr statName "ind level" || containsSubstr statName "industrialization" then
    { n with industrialization_level := max 1 (min 5 (pyInt ((n.industrialization_level : ℚ) + v))) }
  else n

/-- The core-stats `for` loop.  An exception aborts the remaining iterations
but keeps the mutations already applied, as in CPython; the pair's second
component is the escaped exception, if any. -/
def runCoreMatches : Nation → List (String × String × Bool) → Nation × Option PyErr
  | n, [] => (n, none)
  | n, (lbl, vs, p) :: rest =>
    match pyFloat vs with
    | Except.error e => (n, some e)
    | Except.ok v => runCoreMatches (applyStat n (pyLower (pyStrip lbl)) v p) rest

/-- Phase 1 of `apply_ai_stats` (the body of the first `try`): isolate the
stats section by the marker priority chain, truncate before any faction
section, run the matches. -/
def corePhase (n : Nation) (r : String) : Nation × Option PyErr :=
  let sect :=
    if containsSubstr r "**Statistical Impact:**" then afterLast r.data "**Statistical Impact:**".data
    else if containsSubstr r "Statistical Impact:" then afterLast r.data "Statistical Impact:".data
    else if containsSubstr r "Statistical Updates:" then afterLast r.data "Statistical Updates:".data
    else r.data
  let sect := beforeFirst sect "Factional Reactions:".data
  runCoreMatches n (findAllStats sect)

/-- One iteration of the faction loop on an existing factions dict: ensure the
key (default support `50.0`), add the delta, clamp to `[0,100]`.  The source's
`+=` then clamp is two statements on the same key; their composition is the
single clamped write below. -/
def factionStep (fs : List (String × ℚ)) (fname : String) (v : ℚ) : List (String × ℚ) :=
  let fs1 := if (dictGet fs fname).isNone then dictSet fs fname 50 else fs
  dictSet fs1 fname (max 0 (min 100 ((dictGet fs1 fname).getD 0 + v)))

/-- The faction `for` loop.  Reading `nation.factions` raises
`AttributeError` when the attribute is absent (`factions = none`); as in the
core loop, an exception keeps prior mutations. -/
def runFactionMatches : Nation → List (String × String) → Nation × Option PyErr
  | n, [] => (n, none)
  | n, (lbl, vs) :: rest =>
    let fname := pyStrip lbl
    match pyFloat vs with
    | Except.error e => (n, some e)
    | Except.ok v =>
      match n.factions with
      | none => (n, some PyErr.attributeError)
      | some fs => runFactionMatches { n with factions := some (factionStep fs fname v) } rest

/-- Phase 2 of `apply_ai_stats` (the body of the second `try`):
`report.split("Factional Reactions:")[1]` — the segment between the first and
second occurrence, `IndexError` when the separator is absent — optionally
truncated before `Global Reactions Simulated:`, then the faction matches. -/
def factionPhase (n : Nation) (r : String) : Nation × Option PyErr :=
  match findOcc r.data "Factional Reactions:".data with
  | none => (n, some PyErr.indexError)
  | some afterSep =>
    let sect := beforeFirst afterSep "Factional Reactions:".data
    let sect :=
      if containsSubL sect "Global Reactions Simulated:".data then
        beforeFirst sect "Global Reactions Simulated:".data
      else sect
    runFactionMatches n (findAllFactions sect)

/-- The failsafe on line 9: the report must contain the word `Statistic`. -/
def hasStatsMarker (r : String) : Bool :=
  containsSubstr r "Statistic"

/-- The guard on line 81 for the faction phase. -/
def hasFactionMarker (r : String) : Bool :=
  containsSubstr r "Factional Reactions:"

/-- `apply_ai_stats`: early return without the marker; each phase runs inside
its own `try`, so a phase's exception is dropped and its partial state kept. -/
def applyAiStats (n : Nation) (r : String) : Nation :=
  if hasStatsMarker r = false then n
  else
    let n1 := (corePhase n r).1
    if hasFactionMarker r = true then (factionPhase n1 r).1 else n1

/-- `apply_ai_stats` with the exception flow made explicit: the only
statements outside the two `try` blocks are the marker tests and prints, which
cannot raise, so the function always returns normally. -/
def applyAiStatsE (n : Nation) (r : String) : Except PyErr Nation :=
  if hasStatsMarker r = false then Except.ok n
  else
    let n1 := (corePhase n r).1
    if hasFactionMarker r = true then Except.ok (factionPhase n1 r).1 else Except.ok n1

/-! ## Internal stability resolution (`systems/simulation.py`) -/

/-- `resolve_internal_stability`.  Reading `nation.factions` raises
`AttributeError` when absent.  Angry factions (support < 40) each cost 2.0
stability and 0.5% of the current, sequentially compounding GDP; happy
factions (support > 80) each add 1.0 stability; approval below 30 costs a
flat 5.0 stability, above 80 adds 1% GDP; stability is clamped to `[0,100]`
once at the end.  The returned human-readable event labels are display-only
per the source and are not modelled.  The three sequential statement groups
of the body are factored as `angryPenalty`, `happyBoost`, `approvalCheck`.

The loop over angry factions (support < 40): -2.0 stability and -0.5% of the
current GDP per faction, sequentially compounding. -/
def angryPenalty (n : Nation) (fs : List (String × ℚ)) : Nation :=
  (fs.filter fun p => p.2 < 40).foldl
    (fun m _ => { m with
        political_stability := m.political_stability - 2
        gdp := m.gdp - m.gdp * (5 / 1000) }) n

/-- The loop over ecstatic factions (support > 80): +1.0 stability each. -/
def happyBoost (n : Nation) (fs : List (String × ℚ)) : Nation :=
  (fs.filter fun p => p.2 > 80).foldl
    (fun m _ => { m with political_stability := m.political_stability + 1 }) n

/-- The nation-wide approval extremes: below 30 costs a flat 5.0 stability;
above 80 adds 1% GDP. -/
def approvalCheck (n : Nation) : Nation :=
  if n.public_approval < 30 then
    { n with political_stability := n.political_stability - 5 }
  else if n.public_approval > 80 then
    { n with gdp := n.gdp + n.gdp * (1 / 100) }
  else n

def resolve_internal_stability (n : Nation) : Except PyErr Nation :=
  match n.factions with
  | none => Except.error PyErr.attributeError
  | some fs =>
    let n3 := approvalCheck (happyBoost (angryPenalty n fs) fs)
    Except.ok { n3 with political_stability := max 0 (min 100 n3.political_stability) }

/-! ## End-of-turn path (`core/engine.py` lines 32-48) -/

/-- The nation-state effects of the `end turn` command: when
`trigger_historical_event` produced a report, `apply_ai_stats` is applied to
it, then `process_turn` runs.  The turn counter lives on the engine, not the
nation, and is not part of the state here. -/
def processEndTurn (n : Nation) (event : Option String) : Nation :=
  let n1 :=
    match event with
    | some e => applyAiStats n e
    | none => n
  process_turn n1

/-! ## Serialization (`Nation.to_dict` / `Nation.from_dict`) -/

/-- The persisted record produced by `to_dict` and consumed by `from_dict`.
Keys read with `data[...]` (required) are plain fields; keys read with
`data.get(...)` (optional, defaulted) are `Option` fields, `none` meaning
the key is absent from the record. -/
structure NationRec where
  name : String
  save_name : Option String
  starting_year : Option Int
  briefing_text : Option String
  flag_emoji : Option String
  industrialization_level : Option Int
  tech_level : Option Int
  nation_era : Option String
  population : Int
  public_approval : Option ℚ
  gdp : ℚ
  treasury : Option ℚ
  world_gdp : Option (List (String × ℚ))
  world_military : Option (List (String × ℚ))
  regional_neighbors : Option (List (String × ℚ))
  stat_history : Option (List StatEntry)
  military_strength : ℚ
  political_stability : ℚ
  history : Option (List HistEntry)
deriving DecidableEq, Repr

/-- `Nation.to_dict`: every key is written, so every optional field is
`some`. -/
def toDict (n : Nation) : NationRec :=
  { name := n.name
    save_name := some n.save_name
    starting_year := some n.starting_year
    briefing_text := some n.briefing_text
    flag_emoji := some n.flag_emoji
    industrialization_level := some n.industrialization_level
    tech_level := some n.tech_level
    nation_era := some n.nation_era
    population := n.population
    public_approval := some n.public_approval
    gdp := n.gdp
    treasury := some n.treasury
    world_gdp := some n.world_gdp
    world_military := some n.world_military
    regional_neighbors := some n.regional_neighbors
    stat_history := some n.stat_history
    military_strength := n.military_strength
    political_stability := n.political_stability
    history := some n.history }

/-- `Nation.from_dict`: the constructor call with `data.get` defaults,
followed by the `public_approval` and `history` overrides. -/
def fromDict (d : NationRec) : Nation :=
  let n := mkNation d.name (d.starting_year.getD 1) d.population d.gdp
    d.military_strength d.political_stability (d.briefing_text.getD "")
    (d.save_name.getD "default") (some (d.treasury.getD (d.gdp * (20 / 100))))
    (some (d.world_gdp.getD [])) (some (d.world_military.getD []))
    (some (d.stat_history.getD [])) (d.flag_emoji.getD "🏳️")
    (d.industrialization_level.getD 1) (d.tech_level.getD 1)
    (d.nation_era.getD "Stone Age") (some (d.regional_neighbors.getD []))
  { n with
    public_approval := d.public_approval.getD 50
    history := d.history.getD [] }

/-- A persisted record holding only the required keys; every optional key is
absent. -/
def minimalRec (name : String) (population : Int)
    (gdp military_strength political_stability : ℚ) : NationRec :=
  { name := name
    save_name := none
    starting_year := none
    briefing_text := none
    flag_emoji := none
    industrialization_level := none
    tech_level := none
    nation_era := none
    population := population
    public_approval := none
    gdp := gdp
    treasury := none
    world_gdp := none
    world_military := none
    regional_neighbors := none
    stat_history := none
    military_strength := military_strength
    political_stability := political_stability
    history := none }

/-! ## Concrete nations used by the theorems below -/

/-- A plain mid-range nation: stability 50, approval 50, gdp 50. -/
def gdpDemoNation : Nation :=
  mkNation "Gadepia" 2000 1000000 50 100 50 "" "default" (some 10) none none none "🏳️" 1 1 "Stone Age" none

/-- A nation at stability 50 for the percent-sign counterexample. -/
def pctDemoNation : Nation :=
  mkNation "Percentia" 2000 1000000 100 100 50 "" "default" (some 20) none none none "🏳️" 1 1 "Stone Age" none

/-- A high-stability nation whose victorious war overshoots the clamp. -/
def warDemoNation : Nation :=
  mkNation "Warria" 2000 1000000 100 100 98 "" "default" (some 20) none none none "🏳️" 1 1 "Stone Age" none

/-- A nation with gdp 1000 and treasury 300 for the war-cost law. -/
def warCostDemoNation : Nation :=
  mkNation "Costia" 2000 1000000 1000 100 50 "" "default" (some 300) none none none "🏳️" 1 1 "Stone Age" none

/-- A nation with gdp 1000 and treasury 200 for the tax-collection check. -/
def taxDemoNation : Nation :=
  mkNation "Taxland" 2000 1000000 1000 100 50 "" "default" (some 200) none none none "🏳️" 1 1 "Stone Age" none

/-- A freshly constructed nation (its `factions` attribute is absent). -/
def factionDemoNation : Nation :=
  mkNation "Loyalia" 2000 1000000 100 100 50 "" "default" (some 20) none none none "🏳️" 1 1 "Stone Age" none

/-- Tech 5, industrialization 5, gdp-per-capita 40000 (gdp 40 over one
million people). -/
def spaceDemoNation : Nation :=
  mkNation "Astra" 2000 1000000 40 100 50 "" "default" (some 8) none none none "🏳️" 5 5 "Stone Age" none

/-- Tech 5, industrialization 5, gdp-per-capita 10000 (gdp 10 over one
million people). -/
def cyberDemoNation : Nation :=
  mkNation "Cybera" 2000 1000000 10 100 50 "" "default" (some 2) none none none "🏳️" 5 5 "Stone Age" none

/-- The faction report of the lazy-creation scenario. -/
def loyalistReport : String :=
  "Statistical Impact:\nFactional Reactions:\nLoyalists: celebrate the reform (Support Change: +15)"

/-! ## Shared lemmas -/

/-- The eight values the era ladder can produce, in ladder order. -/
def eraValues : List String :=
  ["Space Age", "Cyber Age", "Industrialization Age", "Steel Age",
   "Iron Age", "Mythic Age", "Bronze Age", "Stone Age"]

/-- The signed literal `+10` parses to the rational `10`. -/
theorem ratOfNum_ten : ratOfNum "+10".data = 10 := by
  show ((10 : ℕ) : ℚ) + ((0 : ℕ) : ℚ) / (10 : ℚ) ^ (0 : ℕ) = 10
  norm_num

/-- One pass of the dispatch table keeps stability and approval inside
`[0,100]`: the two branches that write them write a clamped value, every
other branch leaves them unchanged. -/
theorem applyStat_clamp (n : Nation) (s : String) (v : ℚ) (p : Bool)
    (h1 : 0 ≤ n.political_stability) (h2 : n.political_stability ≤ 100)
    (h3 : 0 ≤ n.public_approval) (h4 : n.public_approval ≤ 100) :
    0 ≤ (applyStat n s v p).political_stability ∧
      (applyStat n s v p).political_stability ≤ 100 ∧
      0 ≤ (applyStat n s v p).public_approval ∧
      (applyStat n s v p).public_approval ≤ 100 := by
  unfold applyStat
  split_ifs <;>
    refine ⟨?_, ?_, ?_, ?_⟩ <;>
      first
        | assumption
        | exact le_max_left 0 _
        | exact max_le (by norm_num) (min_le_left 100 _)

/-- The whole core-stats loop keeps stability and approval inside `[0,100]`,
also when it stops early at a float-parse exception. -/
theorem runCoreMatches_clamp (l : List (String × String × Bool)) :
    ∀ n : Nation, 0 ≤ n.political_stability → n.political_stability ≤ 100 →
      0 ≤ n.public_approval → n.public_approval ≤ 100 →
      0 ≤ (runCoreMatches n l).1.political_stability ∧
        (runCoreMatches n l).1.political_stability ≤ 100 ∧
        0 ≤ (runCoreMatches n l).1.public_approval ∧
        (runCoreMatches n l).1.public_approval ≤ 100 := by
  induction l with
  | nil => intro n h1 h2 h3 h4; exact ⟨h1, h2, h3, h4⟩
  | cons x rest ih =>
    intro n h1 h2 h3 h4
    obtain ⟨lbl, vs, p⟩ := x
    cases hf : pyFloat vs with
    | error e => simp only [runCoreMatches, hf]; exact ⟨h1, h2, h3, h4⟩
    | ok v =>
      have hs := applyStat_clamp n (pyLower (pyStrip lbl)) v p h1 h2 h3 h4
      simp only [runCoreMatches, hf]
      exact ih _ hs.1 hs.2.1 hs.2.2.1 hs.2.2.2

/-- Phase 1 keeps stability and approval inside `[0,100]`. -/
theorem corePhase_clamp (n : Nation) (r : String)
    (h1 : 0 ≤ n.political_stability) (h2 : n.political_stability ≤ 100)
    (h3 : 0 ≤ n.public_approval) (h4 : n.public_approval ≤ 100) :
    0 ≤ (corePhase n r).1.political_stability ∧
      (corePhase n r).1.political_stability ≤ 100 ∧
      0 ≤ (corePhase n r).1.public_approval ∧
      (corePhase n r).1.public_approval ≤ 100 :=
  runCoreMatches_clamp _ n h1 h2 h3 h4

/-- The faction loop writes only the `factions` attribute: stability and
approval come out unchanged. -/
theorem runFactionMatches_frame (l : List (String × String)) :
    ∀ n : Nation, (runFactionMatches n l).1.political_stability = n.political_stability ∧
      (runFactionMatches n l).1.public_approval = n.public_approval := by
  induction l with
  | nil => intro n; exact ⟨rfl, rfl⟩
  | cons x rest ih =>
    intro n
    obtain ⟨lbl, vs⟩ := x
    cases hf : pyFloat vs with
    | error e => simp [runFactionMatches, hf]
    | ok v =>
      cases hn : n.factions with
      | none => simp [runFactionMatches, hf, hn]
      | some fs =>
        simp only [runFactionMatches, hf, hn]
        exact ih { n with factions := some (factionStep fs (pyStrip lbl) v) }

/-- Phase 2 never changes stability or approval (also when it raises). -/
theorem factionPhase_frame (n : Nation) (r : String) :
    (factionPhase n r).1.political_stability = n.political_stability ∧
      (factionPhase n r).1.public_approval = n.public_approval := by
  unfold factionPhase
  cases ho : findOcc r.data "Factional Reactions:".data with
  | none => exact ⟨rfl, rfl⟩
  | some s => exact runFactionMatches_frame _ n

/-- Treasury and reported cost of a war, independent of every random draw
and of the outcome branch. -/
theorem executeWar_treasury (n : Nation) (t : String) (s pct : ℚ) (r : ℤ) (u1 u2 : ℚ) :
    (executeWar n t s pct r u1 u2).1.treasury = n.treasury - n.gdp * (pct / 200) ∧
      (executeWar n t s pct r u1 u2).2.cost_billions = n.gdp * (pct / 200) := by
  simp only [executeWar]
  split_ifs <;> exact ⟨rfl, rfl⟩

/-- Dispatch: a label equal to `gdp` hits the gdp branch. -/
theorem applyStat_gdp (n : Nation) (v : ℚ) (p : Bool) :
    applyStat n "gdp" v p = { n with gdp := if p then n.gdp + n.gdp * (v / 100) else n.gdp + v } := by
  unfold applyStat
  rw [if_pos (by decide : containsSubstr "gdp" "gdp" = true)]

/-- Dispatch: a label equal to `treasury` hits the treasury branch. -/
theorem applyStat_treasury (n : Nation) (v : ℚ) (p : Bool) :
    applyStat n "treasury" v p
      = { n with treasury := if p then n.treasury + n.treasury * (v / 100) else n.treasury + v } := by
  unfold applyStat
  rw [if_neg (by decide), if_pos (by decide : containsSubstr "treasury" "treasury" = true)]

/-- Dispatch: a label equal to `population` hits the population branch. -/
theorem applyStat_population (n : Nation) (v : ℚ) (p : Bool) :
    applyStat n "population" v p
      = { n with population := n.population + (if p then pyInt ((n.population : ℚ) * (v / 100)) else pyInt v) } := by
  unfold applyStat
  rw [if_neg (by decide), if_neg (by decide),
    if_pos (by decide : containsSubstr "population" "population" = true)]

/-- Dispatch: a label equal to `military` hits the military branch. -/
theorem applyStat_military (n : Nation) (v : ℚ) (p : Bool) :
    applyStat n "military" v p
      = { n with military_strength := n.military_strength + (if p then n.military_strength * (v / 100) else v) } := by
  unfold applyStat
  rw [if_neg (by decide), if_neg (by decide), if_neg (by decide),
    if_pos (by decide : containsSubstr "military" "military" = true)]

/-- Dispatch: a label equal to `stability` hits the stability branch, which
adds the raw value, clamps, and never consults the percent flag. -/
theorem applyStat_stability (n : Nation) (v : ℚ) (p : Bool) :
    applyStat n "stability" v p
      = { n with political_stability := max 0 (min 100 (n.political_stability + v)) } := by
  unfold applyStat
  rw [if_neg (by decide), if_neg (by decide), if_neg (by decide), if_neg (by decide),
    if_pos (by decide : containsSubstr "stability" "stability" = true)]

/-- Dispatch: a label equal to `approval` hits the approval branch, which
also ignores the percent flag. -/
theorem applyStat_approval (n : Nation) (v : ℚ) (p : Bool) :
    applyStat n "approval" v p
      = { n with public_approval := max 0 (min 100 (n.public_approval + v)) } := by
  unfold applyStat
  rw [if_neg (by decide), if_neg (by decide), if_neg (by decide), if_neg (by decide),
    if_neg (by decide), if_pos (by decide : containsSubstr "approval" "approval" = true)]

/-- Dispatch: a label equal to `tech` hits the tech branch (absolute points,
truncated and clamped to `[1,5]`, percent flag ignored). -/
theorem applyStat_tech (n : Nation) (v : ℚ) (p : Bool) :
    applyStat n "tech" v p
      = { n with tech_level := max 1 (min 5 (pyInt ((n.tech_level : ℚ) + v))) } := by
  unfold applyStat
  rw [if_neg (by decide), if_neg (by decide), if_neg (by decide), if_neg (by decide),
    if_neg (by decide), if_neg (by decide), if_pos (by decide : containsSubstr "tech" "tech" = true)]

/-- Dispatch: a label equal to `industrialization` hits the
industrialization branch (absolute points, clamped to `[1,5]`, percent flag
ignored). -/
theorem applyStat_ind (n : Nation) (v : ℚ) (p : Bool) :
    applyStat n "industrialization" v p
      = { n with industrialization_level := max 1 (min 5 (pyInt ((n.industrialization_level : ℚ) + v))) } := by
  unfold applyStat
  rw [if_neg (by decide), if_neg (by decide), if_neg (by decide), if_neg (by decide),
    if_neg (by decide), if_neg (by decide), if_neg (by decide), if_pos (by decide)]

/-- The angry-faction loop changes only stability and gdp. -/
theorem angryPenalty_approval (n : Nation) (fs : List (String × ℚ)) :
    (angryPenalty n fs).public_approval = n.public_approval := by
  unfold angryPenalty
  generalize fs.filter (fun p => p.2 < 40) = l
  induction l generalizing n with
  | nil => rfl
  | cons a as ih => exact ih _

/-- The happy-faction loop changes only stability. -/
theorem happyBoost_approval (n : Nation) (fs : List (String × ℚ)) :
    (happyBoost n fs).public_approval = n.public_approval := by
  unfold happyBoost
  generalize fs.filter (fun p => p.2 > 80) = l
  induction l generalizing n with
  | nil => rfl
  | cons a as ih => exact ih _

/-- The approval-extremes step changes only stability or gdp. -/
theorem approvalCheck_approval (n : Nation) :
    (approvalCheck n).public_approval = n.public_approval := by
  unfold approvalCheck
  split_ifs <;> rfl

/-! ## Claim theorems -/

/-- C1, counterexample.  A victorious war at stability 98 produces stability
103: `execute_war` adds its ±5/±15 stability and ±10/±20 approval deltas
without clamping, so the claimed `[0,100]` bound fails immediately after the
operation.  All three random draws are legitimate values of their generators
(`randint(1,2)` can return 1, `uniform(0.85,1.15)` can return 1). -/
theorem execute_war_breaks_stability_clamp :
    ¬ ((executeWar warDemoNation "Rivalia" 10 50 1 1 1).1.political_stability ≤ 100) := by
  simp only [executeWar]
  split_ifs with h
  · norm_num [warDemoNation, mkNation]
  · exfalso
    exact h (by norm_num [combat_power, warDemoNation, mkNation, max_def])

/-- C1, amended.  Stability and approval stay in `[0,100]` across
`apply_ai_stats` whenever they start there (each of its stability/approval
writes clamps), and `resolve_internal_stability` always ends with stability
in `[0,100]` and never touches approval; only `execute_war` (see the
counterexample) lacks the clamp. -/
theorem clamp_invariant_outside_war (n : Nation) (r : String)
    (h1 : 0 ≤ n.political_stability) (h2 : n.political_stability ≤ 100)
    (h3 : 0 ≤ n.public_approval) (h4 : n.public_approval ≤ 100) :
    (0 ≤ (applyAiStats n r).political_stability ∧
      (applyAiStats n r).political_stability ≤ 100 ∧
      0 ≤ (applyAiStats n r).public_approval ∧
      (applyAiStats n r).public_approval ≤ 100) ∧
    (∀ m : Nation, resolve_internal_stability n = Except.ok m →
      (0 ≤ m.political_stability ∧ m.political_stability ≤ 100 ∧
        m.public_approval = n.public_approval)) := by
  constructor
  · unfold applyAiStats
    split_ifs with hm hfm
    · exact ⟨h1, h2, h3, h4⟩
    · obtain ⟨hs, hap⟩ := factionPhase_frame (corePhase n r).1 r
      obtain ⟨c1, c2, c3, c4⟩ := corePhase_clamp n r h1 h2 h3 h4
      rw [hs, hap]
      exact ⟨c1, c2, c3, c4⟩
    · exact corePhase_clamp n r h1 h2 h3 h4
  · intro m hm
    unfold resolve_internal_stability at hm
    cases hn : n.factions with
    | none => rw [hn] at hm; simp at hm
    | some fs =>
      rw [hn] at hm
      simp only [Except.ok.injEq] at hm
      subst hm
      refine ⟨le_max_left 0 _, max_le (by norm_num) (min_le_left 100 _), ?_⟩
      show (approvalCheck (happyBoost (angryPenalty n fs) fs)).public_approval = n.public_approval
      rw [approvalCheck_approval, happyBoost_approval, angryPenalty_approval]

/-- C1 witness: the amended theorem applied to a concrete mid-range nation
and a concrete overshooting stability report. -/
theorem clamp_invariant_outside_war_witness :
    (0 ≤ (applyAiStats pctDemoNation "Statistical Impact:\nStability: +500").political_stability ∧
      (applyAiStats pctDemoNation "Statistical Impact:\nStability: +500").political_stability ≤ 100 ∧
      0 ≤ (applyAiStats pctDemoNation "Statistical Impact:\nStability: +500").public_approval ∧
      (applyAiStats pctDemoNation "Statistical Impact:\nStability: +500").public_approval ≤ 100) ∧
    (∀ m : Nation, resolve_internal_stability pctDemoNation = Except.ok m →
      (0 ≤ m.political_stability ∧ m.political_stability ≤ 100 ∧
        m.public_approval = pctDemoNation.public_approval)) :=
  clamp_invariant_outside_war pctDemoNation "Statistical Impact:\nStability: +500"
    (by norm_num [pctDemoNation, mkNation]) (by norm_num [pctDemoNation, mkNation])
    (by norm_num [pctDemoNation, mkNation]) (by norm_num [pctDemoNation, mkNation])

/-- C2, counterexample.  Resolving a turn with no historical event on a
nation with gdp 1000 and treasury 200 leaves the treasury at 200, not at the
claimed 200 + 15% · 1000 = 350: no tax collection exists in the code. -/
theorem no_tax_collected_counterexample :
    ¬ ((processEndTurn taxDemoNation none).treasury
        = taxDemoNation.treasury + (15 / 100) * taxDemoNation.gdp) := by
  have h : (processEndTurn taxDemoNation none).treasury = 200 := rfl
  rw [h]
  norm_num [taxDemoNation, mkNation]

/-- C2, amended.  Turn resolution collects no tax at all: `process_turn`
only recomputes `nation_era` and leaves the treasury — and every other
field — unchanged, and the end-of-turn path is exactly the optional
extractor application followed by `process_turn`. -/
theorem turn_resolution_collects_no_tax (n : Nation) (ev : Option String) :
    (process_turn n).treasury = n.treasury ∧
      process_turn n = { n with nation_era := (process_turn n).nation_era } ∧
      processEndTurn n ev
        = process_turn (match ev with | some e => applyAiStats n e | none => n) :=
  ⟨rfl, rfl, rfl⟩

/-- C3 (code bug).  The faction phase finds the `Loyalists` match, but a
freshly constructed nation has no `factions` attribute (`__init__` never
creates the dict), so the phase raises `AttributeError`, the exception is
swallowed, and the nation is returned entirely unchanged — no faction is
ever lazily created at 50.0 + 15. -/
theorem faction_lazy_creation_unreachable :
    factionDemoNation.factions = none ∧
    findAllFactions "\nLoyalists: celebrate the reform (Support Change: +15)".data
      = [("\nLoyalists", "+15")] ∧
    (factionPhase factionDemoNation loyalistReport).2 = some PyErr.attributeError ∧
    applyAiStats factionDemoNation loyalistReport = factionDemoNation :=
  ⟨rfl, rfl, rfl, rfl⟩

/-- C4, counterexample.  `"Stability: +10%"` on a nation at stability 50
yields 60, not the claimed 50 + 50·(10/100) = 55: the stability branch adds
the raw value and ignores the percent sign. -/
theorem stability_percent_sign_ignored :
    (applyAiStats pctDemoNation "Statistical Impact:\nStability: +10%").political_stability = 60 ∧
    ¬ ((applyAiStats pctDemoNation "Statistical Impact:\nStability: +10%").political_stability
        = pctDemoNation.political_stability + pctDemoNation.political_stability * (10 / 100)) := by
  have h : (applyAiStats pctDemoNation "Statistical Impact:\nStability: +10%").political_stability
      = max 0 (min 100 (50 + ratOfNum "+10".data)) := rfl
  have hv : (applyAiStats pctDemoNation "Statistical Impact:\nStability: +10%").political_stability = 60 := by
    rw [h, ratOfNum_ten, min_eq_right (by norm_num), max_eq_right (by norm_num)]
    norm_num
  refine ⟨hv, ?_⟩
  rw [hv]
  norm_num [pctDemoNation, mkNation]

/-- C4, amended.  The percent flag selects `current · (raw/100)` versus the
raw absolute value only for gdp, treasury, population and military; the
stability, approval, tech and industrialization branches always apply the
raw value as absolute points (the flag is ignored) before their clamps.  The
distinguishing gdp instance stands: gdp 50 becomes 55 under `GDP: +10%` and
60 under `GDP: +10`. -/
theorem percent_semantics_per_field :
    (∀ (n : Nation) (v : ℚ),
      applyStat n "gdp" v true = { n with gdp := n.gdp + n.gdp * (v / 100) } ∧
      applyStat n "gdp" v false = { n with gdp := n.gdp + v }) ∧
    (∀ (n : Nation) (v : ℚ),
      applyStat n "treasury" v true = { n with treasury := n.treasury + n.treasury * (v / 100) } ∧
      applyStat n "treasury" v false = { n with treasury := n.treasury + v }) ∧
    (∀ (n : Nation) (v : ℚ),
      applyStat n "population" v true
        = { n with population := n.population + pyInt ((n.population : ℚ) * (v / 100)) } ∧
      applyStat n "population" v false = { n with population := n.population + pyInt v }) ∧
    (∀ (n : Nation) (v : ℚ),
      applyStat n "military" v true
        = { n with military_strength := n.military_strength + n.military_strength * (v / 100) } ∧
      applyStat n "military" v false = { n with military_strength := n.military_strength + v }) ∧
    (∀ (n : Nation) (v : ℚ) (p : Bool),
      applyStat n "stability" v p
        = { n with political_stability := max 0 (min 100 (n.political_stability + v)) }) ∧
    (∀ (n : Nation) (v : ℚ) (p : Bool),
      applyStat n "approval" v p
        = { n with public_approval := max 0 (min 100 (n.public_approval + v)) }) ∧
    (∀ (n : Nation) (v : ℚ) (p : Bool),
      applyStat n "tech" v p
        = { n with tech_level := max 1 (min 5 (pyInt ((n.tech_level : ℚ) + v))) }) ∧
    (∀ (n : Nation) (v : ℚ) (p : Bool),
      applyStat n "industrialization" v p
        = { n with industrialization_level := max 1 (min 5 (pyInt ((n.industrialization_level : ℚ) + v))) }) ∧
    (applyAiStats gdpDemoNation "Statistical Impact:\nGDP: +10%").gdp = 55 ∧
    (applyAiStats gdpDemoNation "Statistical Impact:\nGDP: +10").gdp = 60 := by
  refine ⟨fun n v => ⟨by simp [applyStat_gdp], by simp [applyStat_gdp]⟩,
    fun n v => ⟨by simp [applyStat_treasury], by simp [applyStat_treasury]⟩,
    fun n v => ⟨by simp [applyStat_population], by simp [applyStat_population]⟩,
    fun n v => ⟨by simp [applyStat_military], by simp [applyStat_military]⟩,
    fun n v p => applyStat_stability n v p,
    fun n v p => applyStat_approval n v p,
    fun n v p => applyStat_tech n v p,
    fun n v p => applyStat_ind n v p,
    ?_, ?_⟩
  · have h : (applyAiStats gdpDemoNation "Statistical Impact:\nGDP: +10%").gdp
        = 50 + 50 * (ratOfNum "+10".data / 100) := rfl
    rw [h, ratOfNum_ten]
    norm_num
  · have h : (applyAiStats gdpDemoNation "Statistical Impact:\nGDP: +10").gdp
        = 50 + ratOfNum "+10".data := rfl
    rw [h, ratOfNum_ten]
    norm_num

/-- C5.  `update_era` always produces one of the eight era values; the
result depends only on tech level, industrialization level, stability and
gdp-per-capita; and the two scenario nations land in Space Age and Cyber Age
respectively (the second falls through rule 1 into rule 2). -/
theorem era_ladder_deterministic (n m : Nation) :
    (update_era n).nation_era ∈ eraValues ∧
    (n.tech_level = m.tech_level → n.industrialization_level = m.industrialization_level →
      n.political_stability = m.political_stability → gdp_per_capita n = gdp_per_capita m →
      (update_era n).nation_era = (update_era m).nation_era) ∧
    (update_era spaceDemoNation).nation_era = "Space Age" ∧
    (update_era cyberDemoNation).nation_era = "Cyber Age" := by
  refine ⟨?_, ?_, ?_, ?_⟩
  · show eraLadder n.tech_level n.industrialization_level n.political_stability
      (gdp_per_capita n) ∈ eraValues
    unfold eraLadder
    split_ifs <;> simp [eraValues]
  · intro ht hi hs hg
    show eraLadder n.tech_level n.industrialization_level n.political_stability
        (gdp_per_capita n)
      = eraLadder m.tech_level m.industrialization_level m.political_stability
        (gdp_per_capita m)
    rw [ht, hi, hs, hg]
  · show eraLadder spaceDemoNation.tech_level spaceDemoNation.industrialization_level
      spaceDemoNation.political_stability (gdp_per_capita spaceDemoNation) = "Space Age"
    have hpc : gdp_per_capita spaceDemoNation > 30000 := by
      norm_num [gdp_per_capita, spaceDemoNation, mkNation]
    unfold eraLadder
    rw [if_pos ⟨rfl, rfl, hpc⟩]
  · show eraLadder cyberDemoNation.tech_level cyberDemoNation.industrialization_level
      cyberDemoNation.political_stability (gdp_per_capita cyberDemoNation) = "Cyber Age"
    have hpc : ¬ (gdp_per_capita cyberDemoNation > 30000) := by
      norm_num [gdp_per_capita, cyberDemoNation, mkNation]
    unfold eraLadder
    rw [if_neg fun h => hpc h.2.2, if_pos ⟨by decide, by decide⟩]

/-- C5 witness: the determinism implication discharged at a concrete
nation. -/
theorem era_ladder_deterministic_witness :
    (update_era spaceDemoNation).nation_era ∈ eraValues ∧
    (update_era spaceDemoNation).nation_era = (update_era spaceDemoNation).nation_era :=
  ⟨(era_ladder_deterministic spaceDemoNation spaceDemoNation).1,
   (era_ladder_deterministic spaceDemoNation spaceDemoNation).2.1 rfl rfl rfl rfl⟩

/-- C6.  For every nation, commitment percentage and random draw,
`execute_war` deducts exactly `gdp · (pct/200)` from the treasury — computed
from the pre-battle gdp, identically in the VICTORY and DEFEAT branches —
and reports that same figure as `cost_billions`; with commitment 50 and
gdp 1000 the deduction is exactly 250. -/
theorem war_cost_unconditional (n : Nation) (t : String) (s pct : ℚ) (r : ℤ) (u1 u2 : ℚ) :
    (executeWar n t s pct r u1 u2).1.treasury = n.treasury - n.gdp * (pct / 200) ∧
    (executeWar n t s pct r u1 u2).2.cost_billions = n.gdp * (pct / 200) ∧
    (executeWar warCostDemoNation "Rivalia" 10 50 1 1 1).1.treasury
      = warCostDemoNation.treasury - 250 := by
  refine ⟨(executeWar_treasury n t s pct r u1 u2).1,
    (executeWar_treasury n t s pct r u1 u2).2, ?_⟩
  rw [(executeWar_treasury warCostDemoNation "Rivalia" 10 50 1 1 1).1]
  norm_num [warCostDemoNation, mkNation]

/-- C7.  A report without the recognized stats marker (the substring
`Statistic`, line 9 of the extractor) leaves the nation entirely
unchanged. -/
theorem no_marker_no_change (n : Nation) (r : String)
    (h : hasStatsMarker r = false) : applyAiStats n r = n := by
  unfold applyAiStats
  rw [if_pos h]

/-- C7 witness: a concrete marker-free report. -/
theorem no_marker_no_change_witness :
    hasStatsMarker "Parliament adjourned without incident." = false ∧
    applyAiStats gdpDemoNation "Parliament adjourned without incident." = gdpDemoNation :=
  ⟨rfl, no_marker_no_change gdpDemoNation "Parliament adjourned without incident." rfl⟩

/-- C8.  `apply_ai_stats` always returns normally (both phase bodies run
inside their own `try`, and nothing outside a `try` can raise), and when the
marker test passes the faction phase always runs on the core phase's output
state — also when the core phase raised, and the core phase's effects are
kept also when the faction phase raises. -/
theorem extractor_never_raises (n : Nation) (r : String) :
    applyAiStatsE n r = Except.ok (applyAiStats n r) ∧
    (hasStatsMarker r = true →
      applyAiStats n r =
        (if hasFactionMarker r = true then (factionPhase (corePhase n r).1 r).1
         else (corePhase n r).1)) := by
  constructor
  · unfold applyAiStatsE applyAiStats
    split_ifs <;> rfl
  · intro hm
    unfold applyAiStats
    rw [if_neg (by simp [hm])]

/-- C8 witness: on the Loyalists report the faction phase genuinely raises
(`AttributeError`, caught), yet the call returns normally with the core
phase's state. -/
theorem extractor_never_raises_witness :
    applyAiStatsE factionDemoNation loyalistReport
      = Except.ok (applyAiStats factionDemoNation loyalistReport) ∧
    applyAiStats factionDemoNation loyalistReport =
      (if hasFactionMarker loyalistReport = true
       then (factionPhase (corePhase factionDemoNation loyalistReport).1 loyalistReport).1
       else (corePhase factionDemoNation loyalistReport).1) :=
  ⟨(extractor_never_raises factionDemoNation loyalistReport).1,
   (extractor_never_raises factionDemoNation loyalistReport).2 rfl⟩

/-- C9.  `from_dict ∘ to_dict` restores every `Nation` field (the
never-created `factions` attribute stays absent), and a record holding only
the required keys gets the documented defaults: treasury 20% of gdp, empty
world/neighbor maps, levels 1, placeholder flag, approval 50. -/
theorem serialization_round_trip :
    (∀ n : Nation, fromDict (toDict n) = { n with factions := none }) ∧
    (∀ (name : String) (population : Int) (gdp ms ps : ℚ),
      (fromDict (minimalRec name population gdp ms ps)).treasury = gdp * (20 / 100) ∧
      (fromDict (minimalRec name population gdp ms ps)).world_gdp = [] ∧
      (fromDict (minimalRec name population gdp ms ps)).world_military = [] ∧
      (fromDict (minimalRec name population gdp ms ps)).regional_neighbors = [] ∧
      (fromDict (minimalRec name population gdp ms ps)).tech_level = 1 ∧
      (fromDict (minimalRec name population gdp ms ps)).industrialization_level = 1 ∧
      (fromDict (minimalRec name population gdp ms ps)).flag_emoji = "🏳️" ∧
      (fromDict (minimalRec name population gdp ms ps)).public_approval = 50) :=
  ⟨fun n => rfl,
   fun name population gdp ms ps => ⟨rfl, rfl, rfl, rfl, rfl, rfl, rfl, rfl⟩⟩

/-- C10.  The constructor accepts no approval argument and pins
`public_approval` to exactly 50 for every argument combination; `from_dict`
is the path that can install a different persisted value afterward. -/
theorem constructor_pins_approval (name : String) (year : Int) (population : Int)
    (gdp military_strength political_stability : ℚ) (briefing save_name : String)
    (treasury : Option ℚ) (wg wm : Option (List (String × ℚ)))
    (sh : Option (List StatEntry)) (flag : String) (il tl : Int) (era : String)
    (rn : Option (List (String × ℚ))) :
    (mkNation name year population gdp military_strength political_stability briefing
        save_name treasury wg wm sh flag il tl era rn).public_approval = 50 ∧
    (∀ d : NationRec, (fromDict d).public_approval = d.public_approval.getD 50) :=
  ⟨rfl, fun d => rfl⟩
